import Mathlib

/-!
# Verification of the `mii` II-protocol command encoders

Shallow embedding of the per-device `Commands::to_bytes` encoders of the
`mii` crate (`src/devices/ansible.rs`, `er301.rs`, `just_friends.rs`,
`telexo.rs`).

Modelling choices:
* A Rust `&mut [u8]` buffer is a `List Nat` of byte values; an indexed
  write `buffer[i] = v` is `wr`, which returns `none` when the index is
  out of bounds (a Rust panic).
* `to_bytes` is state-passing: it returns `none` for a panic, and
  otherwise the final buffer contents together with `Except.ok n`
  (the Rust `Ok(&buffer[..n])`) or `Except.error e` (the Rust `Err(e)`).
* `u16::to_be_bytes` / `i16::to_be_bytes` become `u16_to_be_bytes` /
  `i16_to_be_bytes` on `Nat` / `Int`, with two's complement taken by
  `% 65536`.
-/

/-- Modelled from the spec: the crate-root error enum `SerializationError`
(its defining module is not among the provided sources; §7 of the spec
states the single error kind is buffer-too-small). -/
inductive SerializationError where
  | BufferTooSmall
deriving DecidableEq

/-- Result of a `to_bytes` call: `none` models a panic (an out-of-bounds
slice write); otherwise the final buffer contents paired with
`Except.ok written_length` or `Except.error e`. -/
abbrev EncodeResult := Option (List Nat × Except SerializationError Nat)

/-- One slice write `buffer[i] = v`. Out of bounds is a Rust panic,
modelled as `none`. -/
def wr (buffer : List Nat) (i v : Nat) : Option (List Nat) :=
  if i < buffer.length then some (buffer.set i v) else none

/-- `u16::to_be_bytes`: the big-endian byte pair of a 16-bit unsigned
value. -/
def u16_to_be_bytes (v : Nat) : Nat × Nat :=
  ((v / 256) % 256, v % 256)

/-- `i16::to_be_bytes`: the big-endian byte pair of the two's-complement
bit pattern of a 16-bit signed value. -/
def i16_to_be_bytes (v : Int) : Nat × Nat :=
  u16_to_be_bytes ((v % 65536).toNat)

/-- The written prefix `&buffer[..n]` of a successful encode, `none` on
panic or error. -/
def sliceOf (r : EncodeResult) : Option (List Nat) :=
  match r with
  | some (b, Except.ok n) => some (b.take n)
  | _ => none

/-- The caller-observable outcome of an encode call: the error, or the
returned slice (panic stays `none`). The final buffer beyond the slice is
dropped, matching what `Result<&[u8], SerializationError>` exposes. -/
def outcome (r : EncodeResult) : Option (Except SerializationError (List Nat)) :=
  match r with
  | some (_, Except.error e) => some (Except.error e)
  | some (b, Except.ok n) => some (Except.ok (b.take n))
  | none => none

namespace ansible

/-- `enum Commands` from `src/devices/ansible.rs`. -/
inductive Commands where
  | SetCv (port : Nat) (value : Int)
  | SetCvSlew (port : Nat) (ms : Nat)
  | SetCvFromFader (device_port : Nat) (value : Nat)
  | SetTrState (port : Nat) (state : Bool)
  | SetTrToggle (port : Nat)
  | SetTrPulse (port : Nat)
  | SetTrPulseDuration (port : Nat) (ms : Nat)
  | LoadPreset (preset : Nat)
  | SavePreset (preset : Nat)
  | KriaSetStep (track step state : Nat)
deriving DecidableEq

/-- `Commands::MAX_LENGTH` for Ansible. -/
def MAX_LENGTH : Nat := 4

/-- `Commands::to_bytes` for Ansible: a single up-front check against
`MAX_LENGTH`, then per-variant writes. -/
def to_bytes (c : Commands) (buffer : List Nat) : EncodeResult :=
  if buffer.length < MAX_LENGTH then
    some (buffer, Except.error SerializationError.BufferTooSmall)
  else
    match c with
    | .SetCv port value =>
      let value_bytes := i16_to_be_bytes value
      do
        let b ← wr buffer 0 0x01
        let b ← wr b 1 port
        let b ← wr b 2 value_bytes.1
        let b ← wr b 3 value_bytes.2
        some (b, Except.ok 4)
    | .SetCvSlew port ms =>
      let ms_bytes := u16_to_be_bytes ms
      do
        let b ← wr buffer 0 0x02
        let b ← wr b 1 port
        let b ← wr b 2 ms_bytes.1
        let b ← wr b 3 ms_bytes.2
        some (b, Except.ok 4)
    | .SetCvFromFader device_port value =>
      let value_bytes := u16_to_be_bytes value
      do
        let b ← wr buffer 0 0x06
        let b ← wr b 1 device_port
        let b ← wr b 2 value_bytes.1
        let b ← wr b 3 value_bytes.2
        some (b, Except.ok 4)
    | .SetTrState port state =>
      do
        let b ← wr buffer 0 0x10
        let b ← wr b 1 port
        let b ← wr b 2 state.toNat
        some (b, Except.ok 3)
    | .SetTrToggle port =>
      do
        let b ← wr buffer 0 0x11
        let b ← wr b 1 port
        some (b, Except.ok 2)
    | .SetTrPulse port =>
      do
        let b ← wr buffer 0 0x12
        let b ← wr b 1 port
        some (b, Except.ok 2)
    | .SetTrPulseDuration port ms =>
      let ms_bytes := u16_to_be_bytes ms
      do
        let b ← wr buffer 0 0x13
        let b ← wr b 1 port
        let b ← wr b 2 ms_bytes.1
        let b ← wr b 3 ms_bytes.2
        some (b, Except.ok 4)
    | .LoadPreset preset =>
      do
        let b ← wr buffer 0 0x20
        let b ← wr b 1 preset
        some (b, Except.ok 2)
    | .SavePreset preset =>
      do
        let b ← wr buffer 0 0x21
        let b ← wr b 1 preset
        some (b, Except.ok 2)
    | .KriaSetStep track step state =>
      do
        let b ← wr buffer 0 0x30
        let b ← wr b 1 track
        let b ← wr b 2 step
        let b ← wr b 3 state
        some (b, Except.ok 4)

end ansible

namespace er301

/-- `enum Commands` from `src/devices/er301.rs`. -/
inductive Commands where
  | SetGate (port : Nat) (state : Bool)
  | SetCv (port : Nat) (value : Int)
  | SetCvSlew (port : Nat) (ms : Nat)
deriving DecidableEq

/-- `Commands::MAX_LENGTH` for the ER-301. -/
def MAX_LENGTH : Nat := 4

/-- `Commands::to_bytes` for the ER-301: a per-arm length check against
that arm's own required length, then the writes. -/
def to_bytes (c : Commands) (buffer : List Nat) : EncodeResult :=
  match c with
  | .SetGate port state =>
    if buffer.length < 3 then
      some (buffer, Except.error SerializationError.BufferTooSmall)
    else
      do
        let b ← wr buffer 0 0x00
        let b ← wr b 1 port
        let b ← wr b 2 state.toNat
        some (b, Except.ok 3)
  | .SetCv port value =>
    if buffer.length < 4 then
      some (buffer, Except.error SerializationError.BufferTooSmall)
    else
      let value_bytes := i16_to_be_bytes value
      do
        let b ← wr buffer 0 0x11
        let b ← wr b 1 port
        let b ← wr b 2 value_bytes.1
        let b ← wr b 3 value_bytes.2
        some (b, Except.ok 4)
  | .SetCvSlew port ms =>
    if buffer.length < 4 then
      some (buffer, Except.error SerializationError.BufferTooSmall)
    else
      let ms_bytes := u16_to_be_bytes ms
      do
        let b ← wr buffer 0 0x12
        let b ← wr b 1 port
        let b ← wr b 2 ms_bytes.1
        let b ← wr b 3 ms_bytes.2
        some (b, Except.ok 4)

end er301

namespace just_friends

/-- `enum Commands` from `src/devices/just_friends.rs`. -/
inductive Commands where
  | SetGate (output : Nat) (state : Bool)
  | PlayNote (output : Nat) (pitch : Int) (volume : Int)
deriving DecidableEq

/-- `Commands::MAX_LENGTH` for Just Friends. -/
def MAX_LENGTH : Nat := 6

/-- `Commands::to_bytes` for Just Friends: a per-arm length check against
that arm's own required length, then the writes. -/
def to_bytes (c : Commands) (buffer : List Nat) : EncodeResult :=
  match c with
  | .SetGate output state =>
    if buffer.length < 3 then
      some (buffer, Except.error SerializationError.BufferTooSmall)
    else
      do
        let b ← wr buffer 0 0x01
        let b ← wr b 1 output
        let b ← wr b 2 state.toNat
        some (b, Except.ok 3)
  | .PlayNote output pitch volume =>
    if buffer.length < 6 then
      some (buffer, Except.error SerializationError.BufferTooSmall)
    else
      let pitch_bytes := i16_to_be_bytes pitch
      let volume_bytes := i16_to_be_bytes volume
      do
        let b ← wr buffer 0 0x08
        let b ← wr b 1 output
        let b ← wr b 2 pitch_bytes.1
        let b ← wr b 3 pitch_bytes.2
        let b ← wr b 4 volume_bytes.1
        let b ← wr b 5 volume_bytes.2
        some (b, Except.ok 6)

end just_friends

namespace telexo

/-- `enum Commands` from `src/devices/telexo.rs`. -/
inductive Commands where
  | SetGate (port : Nat) (state : Bool)
  | SetCv (port : Nat) (value : Int)
  | SetCvSlew (port : Nat) (ms : Nat)
  | SetOscPitch (port : Nat) (pitch : Int)
  | SetOscWaveform (port : Nat) (waveform : Nat)
  | SetEnvelopeMode (port : Nat) (enabled : Bool)
  | SetEnvelopeState (port : Nat) (on_state : Bool)
deriving DecidableEq

/-- `Commands::MAX_LENGTH` for the Telexo. -/
def MAX_LENGTH : Nat := 4

/-- `Commands::to_bytes` for the Telexo: a single up-front check against
`MAX_LENGTH`, then per-variant writes. -/
def to_bytes (c : Commands) (buffer : List Nat) : EncodeResult :=
  if buffer.length < MAX_LENGTH then
    some (buffer, Except.error SerializationError.BufferTooSmall)
  else
    match c with
    | .SetGate port state =>
      do
        let b ← wr buffer 0 0x00
        let b ← wr b 1 port
        let b ← wr b 2 state.toNat
        some (b, Except.ok 3)
    | .SetCv port value =>
      let value_bytes := i16_to_be_bytes value
      do
        let b ← wr buffer 0 0x11
        let b ← wr b 1 port
        let b ← wr b 2 value_bytes.1
        let b ← wr b 3 value_bytes.2
        some (b, Except.ok 4)
    | .SetCvSlew port ms =>
      let ms_bytes := u16_to_be_bytes ms
      do
        let b ← wr buffer 0 0x12
        let b ← wr b 1 port
        let b ← wr b 2 ms_bytes.1
        let b ← wr b 3 ms_bytes.2
        some (b, Except.ok 4)
    | .SetOscPitch port pitch =>
      let pitch_bytes := i16_to_be_bytes pitch
      do
        let b ← wr buffer 0 0x41
        let b ← wr b 1 port
        let b ← wr b 2 pitch_bytes.1
        let b ← wr b 3 pitch_bytes.2
        some (b, Except.ok 4)
    | .SetOscWaveform port waveform =>
      let wf_bytes := u16_to_be_bytes waveform
      do
        let b ← wr buffer 0 0x4A
        let b ← wr b 1 port
        let b ← wr b 2 wf_bytes.1
        let b ← wr b 3 wf_bytes.2
        some (b, Except.ok 4)
    | .SetEnvelopeMode port enabled =>
      do
        let b ← wr buffer 0 0x60
        let b ← wr b 1 port
        let b ← wr b 2 enabled.toNat
        some (b, Except.ok 3)
    | .SetEnvelopeState port on_state =>
      do
        let b ← wr buffer 0 0x6D
        let b ← wr b 1 port
        let b ← wr b 2 on_state.toNat
        some (b, Except.ok 3)

end telexo

/-! ## Derived per-variant data

For each device, `encBytes c` is the exact byte list the source writes for
the command `c`, `reqLen c` the Total-bytes column of the spec's §4.2
table, `opcode c` the first byte, and `variantIdx c` the constructor tag
(used to say that two commands are of different variants). -/

namespace ansible

/-- The byte list the Ansible encoder writes for `c`. -/
def encBytes : Commands → List Nat
  | .SetCv port value =>
      [0x01, port, (i16_to_be_bytes value).1, (i16_to_be_bytes value).2]
  | .SetCvSlew port ms =>
      [0x02, port, (u16_to_be_bytes ms).1, (u16_to_be_bytes ms).2]
  | .SetCvFromFader device_port value =>
      [0x06, device_port, (u16_to_be_bytes value).1, (u16_to_be_bytes value).2]
  | .SetTrState port state => [0x10, port, state.toNat]
  | .SetTrToggle port => [0x11, port]
  | .SetTrPulse port => [0x12, port]
  | .SetTrPulseDuration port ms =>
      [0x13, port, (u16_to_be_bytes ms).1, (u16_to_be_bytes ms).2]
  | .LoadPreset preset => [0x20, preset]
  | .SavePreset preset => [0x21, preset]
  | .KriaSetStep track step state => [0x30, track, step, state]

/-- Total-bytes of the §4.2 table for each Ansible variant. -/
def reqLen : Commands → Nat
  | .SetCv .. => 4
  | .SetCvSlew .. => 4
  | .SetCvFromFader .. => 4
  | .SetTrState .. => 3
  | .SetTrToggle .. => 2
  | .SetTrPulse .. => 2
  | .SetTrPulseDuration .. => 4
  | .LoadPreset .. => 2
  | .SavePreset .. => 2
  | .KriaSetStep .. => 4

/-- The opcode byte for each Ansible variant. -/
def opcode : Commands → Nat
  | .SetCv .. => 0x01
  | .SetCvSlew .. => 0x02
  | .SetCvFromFader .. => 0x06
  | .SetTrState .. => 0x10
  | .SetTrToggle .. => 0x11
  | .SetTrPulse .. => 0x12
  | .SetTrPulseDuration .. => 0x13
  | .LoadPreset .. => 0x20
  | .SavePreset .. => 0x21
  | .KriaSetStep .. => 0x30

/-- Constructor tag of an Ansible command. -/
def variantIdx : Commands → Nat
  | .SetCv .. => 0
  | .SetCvSlew .. => 1
  | .SetCvFromFader .. => 2
  | .SetTrState .. => 3
  | .SetTrToggle .. => 4
  | .SetTrPulse .. => 5
  | .SetTrPulseDuration .. => 6
  | .LoadPreset .. => 7
  | .SavePreset .. => 8
  | .KriaSetStep .. => 9

end ansible

namespace er301

/-- The byte list the ER-301 encoder writes for `c`. -/
def encBytes : Commands → List Nat
  | .SetGate port state => [0x00, port, state.toNat]
  | .SetCv port value =>
      [0x11, port, (i16_to_be_bytes value).1, (i16_to_be_bytes value).2]
  | .SetCvSlew port ms =>
      [0x12, port, (u16_to_be_bytes ms).1, (u16_to_be_bytes ms).2]

/-- Total-bytes of the §4.2 table for each ER-301 variant. -/
def reqLen : Commands → Nat
  | .SetGate .. => 3
  | .SetCv .. => 4
  | .SetCvSlew .. => 4

/-- The opcode byte for each ER-301 variant. -/
def opcode : Commands → Nat
  | .SetGate .. => 0x00
  | .SetCv .. => 0x11
  | .SetCvSlew .. => 0x12

/-- Constructor tag of an ER-301 command. -/
def variantIdx : Commands → Nat
  | .SetGate .. => 0
  | .SetCv .. => 1
  | .SetCvSlew .. => 2

end er301

namespace just_friends

/-- The byte list the Just Friends encoder writes for `c`. -/
def encBytes : Commands → List Nat
  | .SetGate output state => [0x01, output, state.toNat]
  | .PlayNote output pitch volume =>
      [0x08, output, (i16_to_be_bytes pitch).1, (i16_to_be_bytes pitch).2,
        (i16_to_be_bytes volume).1, (i16_to_be_bytes volume).2]

/-- Total-bytes of the §4.2 table for each Just Friends variant. -/
def reqLen : Commands → Nat
  | .SetGate .. => 3
  | .PlayNote .. => 6

/-- The opcode byte for each Just Friends variant. -/
def opcode : Commands → Nat
  | .SetGate .. => 0x01
  | .PlayNote .. => 0x08

/-- Constructor tag of a Just Friends command. -/
def variantIdx : Commands → Nat
  | .SetGate .. => 0
  | .PlayNote .. => 1

end just_friends

namespace telexo

/-- The byte list the Telexo encoder writes for `c`. -/
def encBytes : Commands → List Nat
  | .SetGate port state => [0x00, port, state.toNat]
  | .SetCv port value =>
      [0x11, port, (i16_to_be_bytes value).1, (i16_to_be_bytes value).2]
  | .SetCvSlew port ms =>
      [0x12, port, (u16_to_be_bytes ms).1, (u16_to_be_bytes ms).2]
  | .SetOscPitch port pitch =>
      [0x41, port, (i16_to_be_bytes pitch).1, (i16_to_be_bytes pitch).2]
  | .SetOscWaveform port waveform =>
      [0x4A, port, (u16_to_be_bytes waveform).1, (u16_to_be_bytes waveform).2]
  | .SetEnvelopeMode port enabled => [0x60, port, enabled.toNat]
  | .SetEnvelopeState port on_state => [0x6D, port, on_state.toNat]

/-- Total-bytes of the §4.2 table for each Telexo variant. -/
def reqLen : Commands → Nat
  | .SetGate .. => 3
  | .SetCv .. => 4
  | .SetCvSlew .. => 4
  | .SetOscPitch .. => 4
  | .SetOscWaveform .. => 4
  | .SetEnvelopeMode .. => 3
  | .SetEnvelopeState .. => 3

/-- The opcode byte for each Telexo variant. -/
def opcode : Commands → Nat
  | .SetGate .. => 0x00
  | .SetCv .. => 0x11
  | .SetCvSlew .. => 0x12
  | .SetOscPitch .. => 0x41
  | .SetOscWaveform .. => 0x4A
  | .SetEnvelopeMode .. => 0x60
  | .SetEnvelopeState .. => 0x6D

/-- Constructor tag of a Telexo command. -/
def variantIdx : Commands → Nat
  | .SetGate .. => 0
  | .SetCv .. => 1
  | .SetCvSlew .. => 2
  | .SetOscPitch .. => 3
  | .SetOscWaveform .. => 4
  | .SetEnvelopeMode .. => 5
  | .SetEnvelopeState .. => 6

end telexo

/-! ## Helper lemmas about `wr` and list shapes -/

theorem wr_cons_zero (x : Nat) (l : List Nat) (v : Nat) :
    wr (x :: l) 0 v = some (v :: l) := by
  simp [wr]

theorem wr_cons_succ (x : Nat) (l : List Nat) (i v : Nat) :
    wr (x :: l) (i + 1) v = (wr l i v).map (fun l2 => x :: l2) := by
  by_cases h : i < l.length
  · simp [wr, h, Nat.succ_lt_succ h, List.set_cons_succ]
  · simp [wr, h]

theorem exists_cons3 {l : List Nat} (h : 3 ≤ l.length) :
    ∃ a b c t, l = a :: b :: c :: t := by
  match l, h with
  | a :: b :: c :: t, _ => exact ⟨a, b, c, t, rfl⟩

theorem exists_cons4 {l : List Nat} (h : 4 ≤ l.length) :
    ∃ a b c d t, l = a :: b :: c :: d :: t := by
  match l, h with
  | a :: b :: c :: d :: t, _ => exact ⟨a, b, c, d, t, rfl⟩

theorem exists_cons6 {l : List Nat} (h : 6 ≤ l.length) :
    ∃ a b c d e f t, l = a :: b :: c :: d :: e :: f :: t := by
  match l, h with
  | a :: b :: c :: d :: e :: f :: t, _ => exact ⟨a, b, c, d, e, f, t, rfl⟩

/-! ## Characterization of each device encoder

Each `to_bytes` equals: guard on the buffer length, else the written bytes
`encBytes c` followed by the untouched tail, with `Ok (reqLen c)`. For
Ansible and Telexo the guard threshold is the constant `MAX_LENGTH`; for
the ER-301 and Just Friends it is the variant's own `reqLen`. -/

theorem ansible.to_bytes_eq_ansible (c : Commands) (buffer : List Nat) :
    to_bytes c buffer =
      if buffer.length < 4 then
        some (buffer, Except.error SerializationError.BufferTooSmall)
      else
        some (encBytes c ++ buffer.drop (reqLen c), Except.ok (reqLen c)) := by
  by_cases h : buffer.length < 4
  · cases c <;> simp [to_bytes, MAX_LENGTH, h]
  · obtain ⟨a, b, x, d, t, rfl⟩ := exists_cons4 (Nat.le_of_not_lt h)
    cases c <;>
      simp [to_bytes, MAX_LENGTH, h, wr_cons_zero, wr_cons_succ, encBytes, reqLen]

theorem er301.to_bytes_eq_er301 (c : Commands) (buffer : List Nat) :
    to_bytes c buffer =
      if buffer.length < reqLen c then
        some (buffer, Except.error SerializationError.BufferTooSmall)
      else
        some (encBytes c ++ buffer.drop (reqLen c), Except.ok (reqLen c)) := by
  cases c with
  | SetGate port state =>
    by_cases h : buffer.length < 3
    · simp [to_bytes, reqLen, h]
    · obtain ⟨a, b, x, t, rfl⟩ := exists_cons3 (Nat.le_of_not_lt h)
      simp [to_bytes, reqLen, h, encBytes, wr_cons_zero, wr_cons_succ]
  | SetCv port value =>
    by_cases h : buffer.length < 4
    · simp [to_bytes, reqLen, h]
    · obtain ⟨a, b, x, d, t, rfl⟩ := exists_cons4 (Nat.le_of_not_lt h)
      simp [to_bytes, reqLen, h, encBytes, wr_cons_zero, wr_cons_succ]
  | SetCvSlew port ms =>
    by_cases h : buffer.length < 4
    · simp [to_bytes, reqLen, h]
    · obtain ⟨a, b, x, d, t, rfl⟩ := exists_cons4 (Nat.le_of_not_lt h)
      simp [to_bytes, reqLen, h, encBytes, wr_cons_zero, wr_cons_succ]

theorem just_friends.to_bytes_eq_just_friends (c : Commands) (buffer : List Nat) :
    to_bytes c buffer =
      if buffer.length < reqLen c then
        some (buffer, Except.error SerializationError.BufferTooSmall)
      else
        some (encBytes c ++ buffer.drop (reqLen c), Except.ok (reqLen c)) := by
  cases c with
  | SetGate output state =>
    by_cases h : buffer.length < 3
    · simp [to_bytes, reqLen, h]
    · obtain ⟨a, b, x, t, rfl⟩ := exists_cons3 (Nat.le_of_not_lt h)
      simp [to_bytes, reqLen, h, encBytes, wr_cons_zero, wr_cons_succ]
  | PlayNote output pitch volume =>
    by_cases h : buffer.length < 6
    · simp [to_bytes, reqLen, h]
    · obtain ⟨a, b, x, d, e, f, t, rfl⟩ := exists_cons6 (Nat.le_of_not_lt h)
      simp [to_bytes, reqLen, h, encBytes, wr_cons_zero, wr_cons_succ]

theorem telexo.to_bytes_eq_telexo (c : Commands) (buffer : List Nat) :
    to_bytes c buffer =
      if buffer.length < 4 then
        some (buffer, Except.error SerializationError.BufferTooSmall)
      else
        some (encBytes c ++ buffer.drop (reqLen c), Except.ok (reqLen c)) := by
  by_cases h : buffer.length < 4
  · cases c <;> simp [to_bytes, MAX_LENGTH, h]
  · obtain ⟨a, b, x, d, t, rfl⟩ := exists_cons4 (Nat.le_of_not_lt h)
    cases c <;>
      simp [to_bytes, MAX_LENGTH, h, wr_cons_zero, wr_cons_succ, encBytes, reqLen]

/-! ## Derived facts per device -/

theorem ansible.encBytes_length_ansible (c : Commands) :
    (encBytes c).length = reqLen c := by
  cases c <;> rfl

theorem ansible.encBytes_head_ansible (c : Commands) :
    (encBytes c).head? = some (opcode c) := by
  cases c <;> rfl

theorem ansible.reqLen_le_ansible (c : Commands) : reqLen c ≤ MAX_LENGTH := by
  cases c <;> simp [reqLen, MAX_LENGTH]

theorem ansible.to_bytes_success_ansible (c : Commands) (buffer : List Nat)
    (h : MAX_LENGTH ≤ buffer.length) :
    to_bytes c buffer =
      some (encBytes c ++ buffer.drop (reqLen c), Except.ok (reqLen c)) := by
  have h4 : 4 ≤ buffer.length := h
  rw [to_bytes_eq_ansible, if_neg (Nat.not_lt.mpr h4)]

theorem ansible.sliceOf_to_bytes_ansible (c : Commands) (buffer : List Nat)
    (h : MAX_LENGTH ≤ buffer.length) :
    sliceOf (to_bytes c buffer) = some (encBytes c) := by
  rw [to_bytes_success_ansible c buffer h, sliceOf, ← encBytes_length_ansible c,
    List.take_left]

theorem er301.encBytes_length_er301 (c : Commands) :
    (encBytes c).length = reqLen c := by
  cases c <;> rfl

theorem er301.encBytes_head_er301 (c : Commands) :
    (encBytes c).head? = some (opcode c) := by
  cases c <;> rfl

theorem er301.reqLen_le_er301 (c : Commands) : reqLen c ≤ MAX_LENGTH := by
  cases c <;> simp [reqLen, MAX_LENGTH]

theorem er301.to_bytes_success_er301 (c : Commands) (buffer : List Nat)
    (h : reqLen c ≤ buffer.length) :
    to_bytes c buffer =
      some (encBytes c ++ buffer.drop (reqLen c), Except.ok (reqLen c)) := by
  rw [to_bytes_eq_er301, if_neg (Nat.not_lt.mpr h)]

theorem er301.sliceOf_to_bytes_er301 (c : Commands) (buffer : List Nat)
    (h : reqLen c ≤ buffer.length) :
    sliceOf (to_bytes c buffer) = some (encBytes c) := by
  rw [to_bytes_success_er301 c buffer h, sliceOf, ← encBytes_length_er301 c,
    List.take_left]

theorem just_friends.encBytes_length_just_friends (c : Commands) :
    (encBytes c).length = reqLen c := by
  cases c <;> rfl

theorem just_friends.encBytes_head_just_friends (c : Commands) :
    (encBytes c).head? = some (opcode c) := by
  cases c <;> rfl

theorem just_friends.reqLen_le_just_friends (c : Commands) : reqLen c ≤ MAX_LENGTH := by
  cases c <;> simp [reqLen, MAX_LENGTH]

theorem just_friends.to_bytes_success_just_friends (c : Commands) (buffer : List Nat)
    (h : reqLen c ≤ buffer.length) :
    to_bytes c buffer =
      some (encBytes c ++ buffer.drop (reqLen c), Except.ok (reqLen c)) := by
  rw [to_bytes_eq_just_friends, if_neg (Nat.not_lt.mpr h)]

theorem just_friends.sliceOf_to_bytes_just_friends (c : Commands) (buffer : List Nat)
    (h : reqLen c ≤ buffer.length) :
    sliceOf (to_bytes c buffer) = some (encBytes c) := by
  rw [to_bytes_success_just_friends c buffer h, sliceOf, ← encBytes_length_just_friends c,
    List.take_left]

theorem telexo.encBytes_length_telexo (c : Commands) :
    (encBytes c).length = reqLen c := by
  cases c <;> rfl

theorem telexo.encBytes_head_telexo (c : Commands) :
    (encBytes c).head? = some (opcode c) := by
  cases c <;> rfl

theorem telexo.reqLen_le_telexo (c : Commands) : reqLen c ≤ MAX_LENGTH := by
  cases c <;> simp [reqLen, MAX_LENGTH]

theorem telexo.to_bytes_success_telexo (c : Commands) (buffer : List Nat)
    (h : MAX_LENGTH ≤ buffer.length) :
    to_bytes c buffer =
      some (encBytes c ++ buffer.drop (reqLen c), Except.ok (reqLen c)) := by
  have h4 : 4 ≤ buffer.length := h
  rw [to_bytes_eq_telexo, if_neg (Nat.not_lt.mpr h4)]

theorem telexo.sliceOf_to_bytes_telexo (c : Commands) (buffer : List Nat)
    (h : MAX_LENGTH ≤ buffer.length) :
    sliceOf (to_bytes c buffer) = some (encBytes c) := by
  rw [to_bytes_success_telexo c buffer h, sliceOf, ← encBytes_length_telexo c,
    List.take_left]

/-! ## Claim theorems -/

/-- Claim C4: for every device vocabulary, every command value (any field
values whatsoever), and every buffer of any length, `to_bytes` is total:
it returns either `Ok` or `Err BufferTooSmall` and never panics — in the
embedding, it never returns `none`, the marker for an out-of-bounds
buffer write. -/
theorem C4_total_no_panic :
    (∀ (c : ansible.Commands) (buffer : List Nat),
      (ansible.to_bytes c buffer).isSome = true) ∧
    (∀ (c : er301.Commands) (buffer : List Nat),
      (er301.to_bytes c buffer).isSome = true) ∧
    (∀ (c : just_friends.Commands) (buffer : List Nat),
      (just_friends.to_bytes c buffer).isSome = true) ∧
    (∀ (c : telexo.Commands) (buffer : List Nat),
      (telexo.to_bytes c buffer).isSome = true) := by
  refine ⟨fun c buffer => ?_, fun c buffer => ?_, fun c buffer => ?_,
    fun c buffer => ?_⟩
  · rw [ansible.to_bytes_eq_ansible]; split <;> rfl
  · rw [er301.to_bytes_eq_er301]; split <;> rfl
  · rw [just_friends.to_bytes_eq_just_friends]; split <;> rfl
  · rw [telexo.to_bytes_eq_telexo]; split <;> rfl

/-- Claim C5: for every device vocabulary, every command value, and every
buffer, if `to_bytes` returns the `BufferTooSmall` error then no byte of
the buffer has been modified: the buffer state at the error return equals
the buffer passed in. -/
theorem C5_error_leaves_buffer_unchanged :
    (∀ (c : ansible.Commands) (buffer b : List Nat) (e : SerializationError),
      ansible.to_bytes c buffer = some (b, Except.error e) → b = buffer) ∧
    (∀ (c : er301.Commands) (buffer b : List Nat) (e : SerializationError),
      er301.to_bytes c buffer = some (b, Except.error e) → b = buffer) ∧
    (∀ (c : just_friends.Commands) (buffer b : List Nat) (e : SerializationError),
      just_friends.to_bytes c buffer = some (b, Except.error e) → b = buffer) ∧
    (∀ (c : telexo.Commands) (buffer b : List Nat) (e : SerializationError),
      telexo.to_bytes c buffer = some (b, Except.error e) → b = buffer) := by
  refine ⟨fun c buffer b e h => ?_, fun c buffer b e h => ?_,
    fun c buffer b e h => ?_, fun c buffer b e h => ?_⟩
  · rw [ansible.to_bytes_eq_ansible] at h; split at h <;> simp_all
  · rw [er301.to_bytes_eq_er301] at h; split at h <;> simp_all
  · rw [just_friends.to_bytes_eq_just_friends] at h; split at h <;> simp_all
  · rw [telexo.to_bytes_eq_telexo] at h; split at h <;> simp_all

/-- Witness for C5 at a concrete erroring call: Ansible `SetTrPulse` with
a two-byte buffer errors and hands back the untouched buffer. -/
theorem C5_error_leaves_buffer_unchanged_witness : ([0, 0] : List Nat) = [0, 0] :=
  C5_error_leaves_buffer_unchanged.1 (.SetTrPulse 1) [0, 0] [0, 0]
    SerializationError.BufferTooSmall rfl

/-- Claim C8: for every device vocabulary and every command variant, the
length returned by a successful `to_bytes` call never exceeds that
vocabulary's declared `MAX_LENGTH` (4 for Ansible, 4 for ER-301, 6 for
Just Friends, 4 for Telexo). -/
theorem C8_length_le_max :
    ansible.MAX_LENGTH = 4 ∧ er301.MAX_LENGTH = 4 ∧
    just_friends.MAX_LENGTH = 6 ∧ telexo.MAX_LENGTH = 4 ∧
    (∀ (c : ansible.Commands) (buffer b : List Nat) (n : Nat),
      ansible.to_bytes c buffer = some (b, Except.ok n) →
        n ≤ ansible.MAX_LENGTH) ∧
    (∀ (c : er301.Commands) (buffer b : List Nat) (n : Nat),
      er301.to_bytes c buffer = some (b, Except.ok n) →
        n ≤ er301.MAX_LENGTH) ∧
    (∀ (c : just_friends.Commands) (buffer b : List Nat) (n : Nat),
      just_friends.to_bytes c buffer = some (b, Except.ok n) →
        n ≤ just_friends.MAX_LENGTH) ∧
    (∀ (c : telexo.Commands) (buffer b : List Nat) (n : Nat),
      telexo.to_bytes c buffer = some (b, Except.ok n) →
        n ≤ telexo.MAX_LENGTH) := by
  refine ⟨rfl, rfl, rfl, rfl, fun c buffer b n h => ?_, fun c buffer b n h => ?_,
    fun c buffer b n h => ?_, fun c buffer b n h => ?_⟩
  · rw [ansible.to_bytes_eq_ansible] at h
    split at h
    · simp at h
    · simp only [Option.some.injEq, Prod.mk.injEq, Except.ok.injEq] at h
      exact h.2 ▸ ansible.reqLen_le_ansible c
  · rw [er301.to_bytes_eq_er301] at h
    split at h
    · simp at h
    · simp only [Option.some.injEq, Prod.mk.injEq, Except.ok.injEq] at h
      exact h.2 ▸ er301.reqLen_le_er301 c
  · rw [just_friends.to_bytes_eq_just_friends] at h
    split at h
    · simp at h
    · simp only [Option.some.injEq, Prod.mk.injEq, Except.ok.injEq] at h
      exact h.2 ▸ just_friends.reqLen_le_just_friends c
  · rw [telexo.to_bytes_eq_telexo] at h
    split at h
    · simp at h
    · simp only [Option.some.injEq, Prod.mk.injEq, Except.ok.injEq] at h
      exact h.2 ▸ telexo.reqLen_le_telexo c

/-- Witness for C8 at a concrete successful call: Ansible `SetTrPulse`
writes 2 bytes, within `MAX_LENGTH`. -/
theorem C8_length_le_max_witness : 2 ≤ ansible.MAX_LENGTH :=
  (C8_length_le_max.2.2.2.2.1) (.SetTrPulse 1) [0, 0, 0, 0] [0x12, 0x01, 0, 0]
    2 rfl

/-- Claim C9: encoding is deterministic and depends only on the command
value: for any two buffers of equal length, regardless of prior contents,
the caller-observable outcome (error, or the returned byte slice) is
identical. -/
theorem C9_deterministic :
    (∀ (c : ansible.Commands) (b1 b2 : List Nat), b1.length = b2.length →
      outcome (ansible.to_bytes c b1) = outcome (ansible.to_bytes c b2)) ∧
    (∀ (c : er301.Commands) (b1 b2 : List Nat), b1.length = b2.length →
      outcome (er301.to_bytes c b1) = outcome (er301.to_bytes c b2)) ∧
    (∀ (c : just_friends.Commands) (b1 b2 : List Nat), b1.length = b2.length →
      outcome (just_friends.to_bytes c b1) = outcome (just_friends.to_bytes c b2)) ∧
    (∀ (c : telexo.Commands) (b1 b2 : List Nat), b1.length = b2.length →
      outcome (telexo.to_bytes c b1) = outcome (telexo.to_bytes c b2)) := by
  refine ⟨fun c b1 b2 hlen => ?_, fun c b1 b2 hlen => ?_,
    fun c b1 b2 hlen => ?_, fun c b1 b2 hlen => ?_⟩
  · rw [ansible.to_bytes_eq_ansible, ansible.to_bytes_eq_ansible, hlen]
    split
    · rfl
    · simp only [outcome, ← ansible.encBytes_length_ansible, List.take_left]
  · rw [er301.to_bytes_eq_er301, er301.to_bytes_eq_er301, hlen]
    split
    · rfl
    · simp only [outcome, ← er301.encBytes_length_er301, List.take_left]
  · rw [just_friends.to_bytes_eq_just_friends, just_friends.to_bytes_eq_just_friends, hlen]
    split
    · rfl
    · simp only [outcome, ← just_friends.encBytes_length_just_friends, List.take_left]
  · rw [telexo.to_bytes_eq_telexo, telexo.to_bytes_eq_telexo, hlen]
    split
    · rfl
    · simp only [outcome, ← telexo.encBytes_length_telexo, List.take_left]

/-- Witness for C9 at a concrete pair of equal-length buffers with
different prior contents. -/
theorem C9_deterministic_witness :
    outcome (ansible.to_bytes (.SetTrPulse 1) [0, 0, 0, 0]) =
      outcome (ansible.to_bytes (.SetTrPulse 1) [9, 8, 7, 6]) :=
  C9_deterministic.1 (.SetTrPulse 1) [0, 0, 0, 0] [9, 8, 7, 6] rfl

/-- Claim C10: for the Ansible and Telexo vocabularies, `to_bytes` errors
with `BufferTooSmall` if and only if the buffer is shorter than the
vocabulary's `MAX_LENGTH` of 4, uniformly for every variant — even
variants whose encoded form is only 2 or 3 bytes. -/
theorem C10_uniform_guard_iff :
    ansible.MAX_LENGTH = 4 ∧ telexo.MAX_LENGTH = 4 ∧
    (∀ (c : ansible.Commands) (buffer : List Nat),
      (∃ b, ansible.to_bytes c buffer =
        some (b, Except.error SerializationError.BufferTooSmall)) ↔
          buffer.length < ansible.MAX_LENGTH) ∧
    (∀ (c : telexo.Commands) (buffer : List Nat),
      (∃ b, telexo.to_bytes c buffer =
        some (b, Except.error SerializationError.BufferTooSmall)) ↔
          buffer.length < telexo.MAX_LENGTH) := by
  refine ⟨rfl, rfl, fun c buffer => ?_, fun c buffer => ?_⟩
  · rw [ansible.to_bytes_eq_ansible]
    split <;> rename_i h <;> simp [ansible.MAX_LENGTH, h]
  · rw [telexo.to_bytes_eq_telexo]
    split <;> rename_i h <;> simp [telexo.MAX_LENGTH, h]

/-- Claim C6: for every device vocabulary, every command value, and every
buffer, if `to_bytes` succeeds with length `n` then the returned slice is
the leading sub-range `take n` of the final buffer, the buffer keeps its
length, and every byte at or beyond position `n` is unchanged from before
the call. -/
theorem C6_success_frame :
    (∀ (c : ansible.Commands) (buffer b : List Nat) (n : Nat),
      ansible.to_bytes c buffer = some (b, Except.ok n) →
        b.length = buffer.length ∧ n ≤ buffer.length ∧
        sliceOf (ansible.to_bytes c buffer) = some (b.take n) ∧
        b.drop n = buffer.drop n) ∧
    (∀ (c : er301.Commands) (buffer b : List Nat) (n : Nat),
      er301.to_bytes c buffer = some (b, Except.ok n) →
        b.length = buffer.length ∧ n ≤ buffer.length ∧
        sliceOf (er301.to_bytes c buffer) = some (b.take n) ∧
        b.drop n = buffer.drop n) ∧
    (∀ (c : just_friends.Commands) (buffer b : List Nat) (n : Nat),
      just_friends.to_bytes c buffer = some (b, Except.ok n) →
        b.length = buffer.length ∧ n ≤ buffer.length ∧
        sliceOf (just_friends.to_bytes c buffer) = some (b.take n) ∧
        b.drop n = buffer.drop n) ∧
    (∀ (c : telexo.Commands) (buffer b : List Nat) (n : Nat),
      telexo.to_bytes c buffer = some (b, Except.ok n) →
        b.length = buffer.length ∧ n ≤ buffer.length ∧
        sliceOf (telexo.to_bytes c buffer) = some (b.take n) ∧
        b.drop n = buffer.drop n) := by
  refine ⟨fun c buffer b n h => ?_, fun c buffer b n h => ?_,
    fun c buffer b n h => ?_, fun c buffer b n h => ?_⟩
  · have hs := h
    rw [ansible.to_bytes_eq_ansible] at h
    split at h
    · simp at h
    · rename_i hlen
      have hle : ansible.reqLen c ≤ buffer.length :=
        le_trans (ansible.reqLen_le_ansible c) (Nat.le_of_not_lt hlen)
      simp only [Option.some.injEq, Prod.mk.injEq, Except.ok.injEq] at h
      obtain ⟨hb, hn⟩ := h
      subst hb; subst hn
      refine ⟨?_, hle, by rw [hs, sliceOf], ?_⟩
      · rw [List.length_append, List.length_drop, ansible.encBytes_length_ansible]
        omega
      · rw [← ansible.encBytes_length_ansible, List.drop_left, ansible.encBytes_length_ansible]
  · have hs := h
    rw [er301.to_bytes_eq_er301] at h
    split at h
    · simp at h
    · rename_i hlen
      have hle : er301.reqLen c ≤ buffer.length := Nat.le_of_not_lt hlen
      simp only [Option.some.injEq, Prod.mk.injEq, Except.ok.injEq] at h
      obtain ⟨hb, hn⟩ := h
      subst hb; subst hn
      refine ⟨?_, hle, by rw [hs, sliceOf], ?_⟩
      · rw [List.length_append, List.length_drop, er301.encBytes_length_er301]
        omega
      · rw [← er301.encBytes_length_er301, List.drop_left, er301.encBytes_length_er301]
  · have hs := h
    rw [just_friends.to_bytes_eq_just_friends] at h
    split at h
    · simp at h
    · rename_i hlen
      have hle : just_friends.reqLen c ≤ buffer.length := Nat.le_of_not_lt hlen
      simp only [Option.some.injEq, Prod.mk.injEq, Except.ok.injEq] at h
      obtain ⟨hb, hn⟩ := h
      subst hb; subst hn
      refine ⟨?_, hle, by rw [hs, sliceOf], ?_⟩
      · rw [List.length_append, List.length_drop, just_friends.encBytes_length_just_friends]
        omega
      · rw [← just_friends.encBytes_length_just_friends, List.drop_left,
          just_friends.encBytes_length_just_friends]
  · have hs := h
    rw [telexo.to_bytes_eq_telexo] at h
    split at h
    · simp at h
    · rename_i hlen
      have hle : telexo.reqLen c ≤ buffer.length :=
        le_trans (telexo.reqLen_le_telexo c) (Nat.le_of_not_lt hlen)
      simp only [Option.some.injEq, Prod.mk.injEq, Except.ok.injEq] at h
      obtain ⟨hb, hn⟩ := h
      subst hb; subst hn
      refine ⟨?_, hle, by rw [hs, sliceOf], ?_⟩
      · rw [List.length_append, List.length_drop, telexo.encBytes_length_telexo]
        omega
      · rw [← telexo.encBytes_length_telexo, List.drop_left, telexo.encBytes_length_telexo]

/-- Witness for C6 at a concrete successful call: Ansible `SetTrToggle`
writes 2 bytes into a 4-byte buffer and leaves positions 2 and 3 alone. -/
theorem C6_success_frame_witness :
    ([0x11, 5, 7, 9] : List Nat).length = ([1, 2, 7, 9] : List Nat).length ∧
    2 ≤ ([1, 2, 7, 9] : List Nat).length ∧
    sliceOf (ansible.to_bytes (.SetTrToggle 5) [1, 2, 7, 9]) =
      some (([0x11, 5, 7, 9] : List Nat).take 2) ∧
    ([0x11, 5, 7, 9] : List Nat).drop 2 = ([1, 2, 7, 9] : List Nat).drop 2 :=
  C6_success_frame.1 (.SetTrToggle 5) [1, 2, 7, 9] [0x11, 5, 7, 9] 2 rfl

/-- Claim C7: within each device vocabulary no two different variants
share an opcode, the set of reachable opcodes is exactly the fixed finite
set listed (Ansible 0x01 0x02 0x06 0x10 0x11 0x12 0x13 0x20 0x21 0x30;
ER-301 0x00 0x11 0x12; Just Friends 0x01 0x08; Telexo 0x00 0x11 0x12
0x41 0x4A 0x60 0x6D), and with a sufficient buffer the first byte of the
encoded slice is that opcode — so commands of different variants encode
with different first bytes. -/
theorem C7_opcode_injective_and_closed :
    (∀ c1 c2 : ansible.Commands, ansible.variantIdx c1 ≠ ansible.variantIdx c2 →
      ansible.opcode c1 ≠ ansible.opcode c2) ∧
    (∀ c : ansible.Commands,
      ansible.opcode c ∈ [0x01, 0x02, 0x06, 0x10, 0x11, 0x12, 0x13, 0x20, 0x21, 0x30]) ∧
    (∀ (c : ansible.Commands) (buffer : List Nat),
      ansible.MAX_LENGTH ≤ buffer.length →
      ∃ s, sliceOf (ansible.to_bytes c buffer) = some s ∧
        s.head? = some (ansible.opcode c)) ∧
    (∀ c1 c2 : er301.Commands, er301.variantIdx c1 ≠ er301.variantIdx c2 →
      er301.opcode c1 ≠ er301.opcode c2) ∧
    (∀ c : er301.Commands, er301.opcode c ∈ [0x00, 0x11, 0x12]) ∧
    (∀ (c : er301.Commands) (buffer : List Nat),
      er301.reqLen c ≤ buffer.length →
      ∃ s, sliceOf (er301.to_bytes c buffer) = some s ∧
        s.head? = some (er301.opcode c)) ∧
    (∀ c1 c2 : just_friends.Commands,
      just_friends.variantIdx c1 ≠ just_friends.variantIdx c2 →
      just_friends.opcode c1 ≠ just_friends.opcode c2) ∧
    (∀ c : just_friends.Commands, just_friends.opcode c ∈ [0x01, 0x08]) ∧
    (∀ (c : just_friends.Commands) (buffer : List Nat),
      just_friends.reqLen c ≤ buffer.length →
      ∃ s, sliceOf (just_friends.to_bytes c buffer) = some s ∧
        s.head? = some (just_friends.opcode c)) ∧
    (∀ c1 c2 : telexo.Commands, telexo.variantIdx c1 ≠ telexo.variantIdx c2 →
      telexo.opcode c1 ≠ telexo.opcode c2) ∧
    (∀ c : telexo.Commands,
      telexo.opcode c ∈ [0x00, 0x11, 0x12, 0x41, 0x4A, 0x60, 0x6D]) ∧
    (∀ (c : telexo.Commands) (buffer : List Nat),
      telexo.MAX_LENGTH ≤ buffer.length →
      ∃ s, sliceOf (telexo.to_bytes c buffer) = some s ∧
        s.head? = some (telexo.opcode c)) := by
  refine ⟨fun c1 c2 h => ?_, fun c => ?_, fun c buffer h => ?_,
    fun c1 c2 h => ?_, fun c => ?_, fun c buffer h => ?_,
    fun c1 c2 h => ?_, fun c => ?_, fun c buffer h => ?_,
    fun c1 c2 h => ?_, fun c => ?_, fun c buffer h => ?_⟩
  · cases c1 <;> cases c2 <;>
      simp only [ansible.variantIdx, ansible.opcode] at h ⊢ <;> omega
  · cases c <;> simp [ansible.opcode]
  · exact ⟨ansible.encBytes c, ansible.sliceOf_to_bytes_ansible c buffer h,
      ansible.encBytes_head_ansible c⟩
  · cases c1 <;> cases c2 <;>
      simp only [er301.variantIdx, er301.opcode] at h ⊢ <;> omega
  · cases c <;> simp [er301.opcode]
  · exact ⟨er301.encBytes c, er301.sliceOf_to_bytes_er301 c buffer h,
      er301.encBytes_head_er301 c⟩
  · cases c1 <;> cases c2 <;>
      simp only [just_friends.variantIdx, just_friends.opcode] at h ⊢ <;> omega
  · cases c <;> simp [just_friends.opcode]
  · exact ⟨just_friends.encBytes c, just_friends.sliceOf_to_bytes_just_friends c buffer h,
      just_friends.encBytes_head_just_friends c⟩
  · cases c1 <;> cases c2 <;>
      simp only [telexo.variantIdx, telexo.opcode] at h ⊢ <;> omega
  · cases c <;> simp [telexo.opcode]
  · exact ⟨telexo.encBytes c, telexo.sliceOf_to_bytes_telexo c buffer h,
      telexo.encBytes_head_telexo c⟩

/-- Witness for C7 at concrete inputs: two Ansible variants with
different tags get different opcodes, and a concrete encode starts with
its opcode. -/
theorem C7_opcode_injective_and_closed_witness :
    ansible.opcode (.SetTrToggle 0) ≠ ansible.opcode (.SetTrPulse 0) ∧
    ∃ s, sliceOf (ansible.to_bytes (.SetTrPulse 1) [0, 0, 0, 0]) = some s ∧
      s.head? = some (ansible.opcode (.SetTrPulse 1)) :=
  ⟨C7_opcode_injective_and_closed.1 (.SetTrToggle 0) (.SetTrPulse 0)
      (by decide),
    (C7_opcode_injective_and_closed.2.2.1) (.SetTrPulse 1) [0, 0, 0, 0]
      (by decide)⟩

/-- Claim C2: for every device vocabulary and every command variant,
given a sufficiently large buffer, `to_bytes` returns `Ok` with a slice
that is exactly the §4.2 table row — the opcode byte, then the payload
fields in order, big-endian for 16-bit fields, with the table's total
length; in particular the three concrete spec examples hold. -/
theorem C2_table_layout :
    (∀ (port : Nat) (value : Int) (buffer : List Nat),
      ansible.MAX_LENGTH ≤ buffer.length →
      sliceOf (ansible.to_bytes (.SetCv port value) buffer) =
        some [0x01, port, (i16_to_be_bytes value).1, (i16_to_be_bytes value).2]) ∧
    (∀ (port ms : Nat) (buffer : List Nat),
      ansible.MAX_LENGTH ≤ buffer.length →
      sliceOf (ansible.to_bytes (.SetCvSlew port ms) buffer) =
        some [0x02, port, (u16_to_be_bytes ms).1, (u16_to_be_bytes ms).2]) ∧
    (∀ (device_port value : Nat) (buffer : List Nat),
      ansible.MAX_LENGTH ≤ buffer.length →
      sliceOf (ansible.to_bytes (.SetCvFromFader device_port value) buffer) =
        some [0x06, device_port, (u16_to_be_bytes value).1, (u16_to_be_bytes value).2]) ∧
    (∀ (port : Nat) (state : Bool) (buffer : List Nat),
      ansible.MAX_LENGTH ≤ buffer.length →
      sliceOf (ansible.to_bytes (.SetTrState port state) buffer) =
        some [0x10, port, state.toNat]) ∧
    (∀ (port : Nat) (buffer : List Nat),
      ansible.MAX_LENGTH ≤ buffer.length →
      sliceOf (ansible.to_bytes (.SetTrToggle port) buffer) = some [0x11, port]) ∧
    (∀ (port : Nat) (buffer : List Nat),
      ansible.MAX_LENGTH ≤ buffer.length →
      sliceOf (ansible.to_bytes (.SetTrPulse port) buffer) = some [0x12, port]) ∧
    (∀ (port ms : Nat) (buffer : List Nat),
      ansible.MAX_LENGTH ≤ buffer.length →
      sliceOf (ansible.to_bytes (.SetTrPulseDuration port ms) buffer) =
        some [0x13, port, (u16_to_be_bytes ms).1, (u16_to_be_bytes ms).2]) ∧
    (∀ (preset : Nat) (buffer : List Nat),
      ansible.MAX_LENGTH ≤ buffer.length →
      sliceOf (ansible.to_bytes (.LoadPreset preset) buffer) = some [0x20, preset]) ∧
    (∀ (preset : Nat) (buffer : List Nat),
      ansible.MAX_LENGTH ≤ buffer.length →
      sliceOf (ansible.to_bytes (.SavePreset preset) buffer) = some [0x21, preset]) ∧
    (∀ (track step state : Nat) (buffer : List Nat),
      ansible.MAX_LENGTH ≤ buffer.length →
      sliceOf (ansible.to_bytes (.KriaSetStep track step state) buffer) =
        some [0x30, track, step, state]) ∧
    (∀ (port : Nat) (state : Bool) (buffer : List Nat), 3 ≤ buffer.length →
      sliceOf (er301.to_bytes (.SetGate port state) buffer) =
        some [0x00, port, state.toNat]) ∧
    (∀ (port : Nat) (value : Int) (buffer : List Nat), 4 ≤ buffer.length →
      sliceOf (er301.to_bytes (.SetCv port value) buffer) =
        some [0x11, port, (i16_to_be_bytes value).1, (i16_to_be_bytes value).2]) ∧
    (∀ (port ms : Nat) (buffer : List Nat), 4 ≤ buffer.length →
      sliceOf (er301.to_bytes (.SetCvSlew port ms) buffer) =
        some [0x12, port, (u16_to_be_bytes ms).1, (u16_to_be_bytes ms).2]) ∧
    (∀ (output : Nat) (state : Bool) (buffer : List Nat), 3 ≤ buffer.length →
      sliceOf (just_friends.to_bytes (.SetGate output state) buffer) =
        some [0x01, output, state.toNat]) ∧
    (∀ (output : Nat) (pitch volume : Int) (buffer : List Nat), 6 ≤ buffer.length →
      sliceOf (just_friends.to_bytes (.PlayNote output pitch volume) buffer) =
        some [0x08, output, (i16_to_be_bytes pitch).1, (i16_to_be_bytes pitch).2,
          (i16_to_be_bytes volume).1, (i16_to_be_bytes volume).2]) ∧
    (∀ (port : Nat) (state : Bool) (buffer : List Nat),
      telexo.MAX_LENGTH ≤ buffer.length →
      sliceOf (telexo.to_bytes (.SetGate port state) buffer) =
        some [0x00, port, state.toNat]) ∧
    (∀ (port : Nat) (value : Int) (buffer : List Nat),
      telexo.MAX_LENGTH ≤ buffer.length →
      sliceOf (telexo.to_bytes (.SetCv port value) buffer) =
        some [0x11, port, (i16_to_be_bytes value).1, (i16_to_be_bytes value).2]) ∧
    (∀ (port ms : Nat) (buffer : List Nat),
      telexo.MAX_LENGTH ≤ buffer.length →
      sliceOf (telexo.to_bytes (.SetCvSlew port ms) buffer) =
        some [0x12, port, (u16_to_be_bytes ms).1, (u16_to_be_bytes ms).2]) ∧
    (∀ (port : Nat) (pitch : Int) (buffer : List Nat),
      telexo.MAX_LENGTH ≤ buffer.length →
      sliceOf (telexo.to_bytes (.SetOscPitch port pitch) buffer) =
        some [0x41, port, (i16_to_be_bytes pitch).1, (i16_to_be_bytes pitch).2]) ∧
    (∀ (port waveform : Nat) (buffer : List Nat),
      telexo.MAX_LENGTH ≤ buffer.length →
      sliceOf (telexo.to_bytes (.SetOscWaveform port waveform) buffer) =
        some [0x4A, port, (u16_to_be_bytes waveform).1, (u16_to_be_bytes waveform).2]) ∧
    (∀ (port : Nat) (enabled : Bool) (buffer : List Nat),
      telexo.MAX_LENGTH ≤ buffer.length →
      sliceOf (telexo.to_bytes (.SetEnvelopeMode port enabled) buffer) =
        some [0x60, port, enabled.toNat]) ∧
    (∀ (port : Nat) (on_state : Bool) (buffer : List Nat),
      telexo.MAX_LENGTH ≤ buffer.length →
      sliceOf (telexo.to_bytes (.SetEnvelopeState port on_state) buffer) =
        some [0x6D, port, on_state.toNat]) ∧
    sliceOf (er301.to_bytes (.SetCv 5 8192) [0, 0, 0, 0]) =
      some [0x11, 0x05, 0x20, 0x00] ∧
    sliceOf (ansible.to_bytes (.SetTrPulse 1) [0, 0, 0, 0]) =
      some [0x12, 0x01] ∧
    sliceOf (just_friends.to_bytes (.PlayNote 1 (-1) 16000) [0, 0, 0, 0, 0, 0]) =
      some [0x08, 0x01, 0xFF, 0xFF, 0x3E, 0x80] := by
  refine ⟨fun p v buffer h => ?_, fun p m buffer h => ?_, fun p v buffer h => ?_,
    fun p s buffer h => ?_, fun p buffer h => ?_, fun p buffer h => ?_,
    fun p m buffer h => ?_, fun p buffer h => ?_, fun p buffer h => ?_,
    fun tr st sta buffer h => ?_,
    fun p s buffer h => ?_, fun p v buffer h => ?_, fun p m buffer h => ?_,
    fun o s buffer h => ?_, fun o pi vo buffer h => ?_,
    fun p s buffer h => ?_, fun p v buffer h => ?_, fun p m buffer h => ?_,
    fun p pi buffer h => ?_, fun p w buffer h => ?_, fun p e buffer h => ?_,
    fun p o buffer h => ?_, rfl, rfl, rfl⟩ <;>
  [rw [ansible.sliceOf_to_bytes_ansible _ _ h]; rw [ansible.sliceOf_to_bytes_ansible _ _ h];
    rw [ansible.sliceOf_to_bytes_ansible _ _ h]; rw [ansible.sliceOf_to_bytes_ansible _ _ h];
    rw [ansible.sliceOf_to_bytes_ansible _ _ h]; rw [ansible.sliceOf_to_bytes_ansible _ _ h];
    rw [ansible.sliceOf_to_bytes_ansible _ _ h]; rw [ansible.sliceOf_to_bytes_ansible _ _ h];
    rw [ansible.sliceOf_to_bytes_ansible _ _ h]; rw [ansible.sliceOf_to_bytes_ansible _ _ h];
    rw [er301.sliceOf_to_bytes_er301 _ _ (by exact h)];
    rw [er301.sliceOf_to_bytes_er301 _ _ (by exact h)];
    rw [er301.sliceOf_to_bytes_er301 _ _ (by exact h)];
    rw [just_friends.sliceOf_to_bytes_just_friends _ _ (by exact h)];
    rw [just_friends.sliceOf_to_bytes_just_friends _ _ (by exact h)];
    rw [telexo.sliceOf_to_bytes_telexo _ _ h]; rw [telexo.sliceOf_to_bytes_telexo _ _ h];
    rw [telexo.sliceOf_to_bytes_telexo _ _ h]; rw [telexo.sliceOf_to_bytes_telexo _ _ h];
    rw [telexo.sliceOf_to_bytes_telexo _ _ h]; rw [telexo.sliceOf_to_bytes_telexo _ _ h];
    rw [telexo.sliceOf_to_bytes_telexo _ _ h]] <;>
  simp only [ansible.encBytes, er301.encBytes, just_friends.encBytes,
    telexo.encBytes]

/-- Witness for C2 at a concrete input with a buffer larger than the
variant needs. -/
theorem C2_table_layout_witness :
    sliceOf (ansible.to_bytes (.KriaSetStep 2 7 1) [9, 9, 9, 9, 9]) =
      some [0x30, 2, 7, 1] :=
  (C2_table_layout.2.2.2.2.2.2.2.2.2.1) 2 7 1 [9, 9, 9, 9, 9] (by decide)

/-! ## Arithmetic bridge between `/ % 256` and shift-mask form -/

theorem u16_hi_eq_shift_mask (x : Nat) :
    (u16_to_be_bytes x).1 = (x >>> 8) &&& 0xFF := by
  have h : (0xFF : Nat) = 2 ^ 8 - 1 := by norm_num
  rw [h, Nat.and_pow_two_sub_one_eq_mod, Nat.shiftRight_eq_div_pow]
  norm_num [u16_to_be_bytes]

theorem u16_lo_eq_mask (x : Nat) :
    (u16_to_be_bytes x).2 = x &&& 0xFF := by
  have h : (0xFF : Nat) = 2 ^ 8 - 1 := by norm_num
  rw [h, Nat.and_pow_two_sub_one_eq_mod]
  norm_num [u16_to_be_bytes]

/-- Claim C3: every 16-bit field is emitted most-significant-byte first:
the two bytes at the field's positions are `(v >>> 8) &&& 0xFF` then
`v &&& 0xFF`, where a signed value contributes its 16-bit two's-complement
bit pattern `(v % 65536).toNat`. Covers every variant of every device
that carries a 16-bit field. -/
theorem C3_big_endian :
    (∀ (port : Nat) (v : Int) (buffer : List Nat),
      ansible.MAX_LENGTH ≤ buffer.length → -32768 ≤ v → v < 32768 →
      ∃ s, sliceOf (ansible.to_bytes (.SetCv port v) buffer) = some s ∧
        s.drop 2 = [((v % 65536).toNat >>> 8) &&& 0xFF, (v % 65536).toNat &&& 0xFF]) ∧
    (∀ (port ms : Nat) (buffer : List Nat),
      ansible.MAX_LENGTH ≤ buffer.length → ms < 65536 →
      ∃ s, sliceOf (ansible.to_bytes (.SetCvSlew port ms) buffer) = some s ∧
        s.drop 2 = [(ms >>> 8) &&& 0xFF, ms &&& 0xFF]) ∧
    (∀ (device_port v : Nat) (buffer : List Nat),
      ansible.MAX_LENGTH ≤ buffer.length → v < 65536 →
      ∃ s, sliceOf (ansible.to_bytes (.SetCvFromFader device_port v) buffer) = some s ∧
        s.drop 2 = [(v >>> 8) &&& 0xFF, v &&& 0xFF]) ∧
    (∀ (port ms : Nat) (buffer : List Nat),
      ansible.MAX_LENGTH ≤ buffer.length → ms < 65536 →
      ∃ s, sliceOf (ansible.to_bytes (.SetTrPulseDuration port ms) buffer) = some s ∧
        s.drop 2 = [(ms >>> 8) &&& 0xFF, ms &&& 0xFF]) ∧
    (∀ (port : Nat) (v : Int) (buffer : List Nat),
      4 ≤ buffer.length → -32768 ≤ v → v < 32768 →
      ∃ s, sliceOf (er301.to_bytes (.SetCv port v) buffer) = some s ∧
        s.drop 2 = [((v % 65536).toNat >>> 8) &&& 0xFF, (v % 65536).toNat &&& 0xFF]) ∧
    (∀ (port ms : Nat) (buffer : List Nat),
      4 ≤ buffer.length → ms < 65536 →
      ∃ s, sliceOf (er301.to_bytes (.SetCvSlew port ms) buffer) = some s ∧
        s.drop 2 = [(ms >>> 8) &&& 0xFF, ms &&& 0xFF]) ∧
    (∀ (output : Nat) (pitch volume : Int) (buffer : List Nat),
      6 ≤ buffer.length → -32768 ≤ pitch → pitch < 32768 →
      -32768 ≤ volume → volume < 32768 →
      ∃ s, sliceOf (just_friends.to_bytes (.PlayNote output pitch volume) buffer) =
        some s ∧
        s.drop 2 = [((pitch % 65536).toNat >>> 8) &&& 0xFF,
          (pitch % 65536).toNat &&& 0xFF,
          ((volume % 65536).toNat >>> 8) &&& 0xFF,
          (volume % 65536).toNat &&& 0xFF]) ∧
    (∀ (port : Nat) (v : Int) (buffer : List Nat),
      telexo.MAX_LENGTH ≤ buffer.length → -32768 ≤ v → v < 32768 →
      ∃ s, sliceOf (telexo.to_bytes (.SetCv port v) buffer) = some s ∧
        s.drop 2 = [((v % 65536).toNat >>> 8) &&& 0xFF, (v % 65536).toNat &&& 0xFF]) ∧
    (∀ (port ms : Nat) (buffer : List Nat),
      telexo.MAX_LENGTH ≤ buffer.length → ms < 65536 →
      ∃ s, sliceOf (telexo.to_bytes (.SetCvSlew port ms) buffer) = some s ∧
        s.drop 2 = [(ms >>> 8) &&& 0xFF, ms &&& 0xFF]) ∧
    (∀ (port : Nat) (pitch : Int) (buffer : List Nat),
      telexo.MAX_LENGTH ≤ buffer.length → -32768 ≤ pitch → pitch < 32768 →
      ∃ s, sliceOf (telexo.to_bytes (.SetOscPitch port pitch) buffer) = some s ∧
        s.drop 2 = [((pitch % 65536).toNat >>> 8) &&& 0xFF,
          (pitch % 65536).toNat &&& 0xFF]) ∧
    (∀ (port waveform : Nat) (buffer : List Nat),
      telexo.MAX_LENGTH ≤ buffer.length → waveform < 65536 →
      ∃ s, sliceOf (telexo.to_bytes (.SetOscWaveform port waveform) buffer) = some s ∧
        s.drop 2 = [(waveform >>> 8) &&& 0xFF, waveform &&& 0xFF]) := by
  refine ⟨fun p v buffer h h1 h2 => ?_, fun p m buffer h h1 => ?_,
    fun p v buffer h h1 => ?_, fun p m buffer h h1 => ?_,
    fun p v buffer h h1 h2 => ?_, fun p m buffer h h1 => ?_,
    fun o pi vo buffer h h1 h2 h3 h4 => ?_,
    fun p v buffer h h1 h2 => ?_, fun p m buffer h h1 => ?_,
    fun p pi buffer h h1 h2 => ?_, fun p w buffer h h1 => ?_⟩ <;>
  [exact ⟨_, ansible.sliceOf_to_bytes_ansible _ _ h, by
    simp [ansible.encBytes, i16_to_be_bytes, u16_hi_eq_shift_mask, u16_lo_eq_mask]⟩;
   exact ⟨_, ansible.sliceOf_to_bytes_ansible _ _ h, by
    simp [ansible.encBytes, u16_hi_eq_shift_mask, u16_lo_eq_mask]⟩;
   exact ⟨_, ansible.sliceOf_to_bytes_ansible _ _ h, by
    simp [ansible.encBytes, u16_hi_eq_shift_mask, u16_lo_eq_mask]⟩;
   exact ⟨_, ansible.sliceOf_to_bytes_ansible _ _ h, by
    simp [ansible.encBytes, u16_hi_eq_shift_mask, u16_lo_eq_mask]⟩;
   exact ⟨_, er301.sliceOf_to_bytes_er301 _ _ (by exact h), by
    simp [er301.encBytes, i16_to_be_bytes, u16_hi_eq_shift_mask, u16_lo_eq_mask]⟩;
   exact ⟨_, er301.sliceOf_to_bytes_er301 _ _ (by exact h), by
    simp [er301.encBytes, u16_hi_eq_shift_mask, u16_lo_eq_mask]⟩;
   exact ⟨_, just_friends.sliceOf_to_bytes_just_friends _ _ (by exact h), by
    simp [just_friends.encBytes, i16_to_be_bytes, u16_hi_eq_shift_mask,
      u16_lo_eq_mask]⟩;
   exact ⟨_, telexo.sliceOf_to_bytes_telexo _ _ h, by
    simp [telexo.encBytes, i16_to_be_bytes, u16_hi_eq_shift_mask, u16_lo_eq_mask]⟩;
   exact ⟨_, telexo.sliceOf_to_bytes_telexo _ _ h, by
    simp [telexo.encBytes, u16_hi_eq_shift_mask, u16_lo_eq_mask]⟩;
   exact ⟨_, telexo.sliceOf_to_bytes_telexo _ _ h, by
    simp [telexo.encBytes, i16_to_be_bytes, u16_hi_eq_shift_mask, u16_lo_eq_mask]⟩;
   exact ⟨_, telexo.sliceOf_to_bytes_telexo _ _ h, by
    simp [telexo.encBytes, u16_hi_eq_shift_mask, u16_lo_eq_mask]⟩]

/-- Witness for C3 at the spec's own concrete example: Just Friends
`PlayNote` with pitch −1 and volume 16000. -/
theorem C3_big_endian_witness :
    ∃ s, sliceOf (just_friends.to_bytes (.PlayNote 1 (-1) 16000)
        [0, 0, 0, 0, 0, 0]) = some s ∧
      s.drop 2 = [(((-1 : Int) % 65536).toNat >>> 8) &&& 0xFF,
        ((-1 : Int) % 65536).toNat &&& 0xFF,
        (((16000 : Int) % 65536).toNat >>> 8) &&& 0xFF,
        ((16000 : Int) % 65536).toNat &&& 0xFF] :=
  (C3_big_endian.2.2.2.2.2.2.1) 1 (-1) 16000 [0, 0, 0, 0, 0, 0]
    (by decide) (by decide) (by decide) (by decide) (by decide)

/-- Claim C1 as stated is false on the code: Ansible `SetTrPulse` needs 2
bytes per the §4.2 table, yet `to_bytes` with a buffer of exactly that
length (2 bytes, shorter than `MAX_LENGTH = 4`) fails with
`BufferTooSmall` instead of succeeding, because the Ansible encoder
guards every variant against `MAX_LENGTH` up front. -/
theorem C1_counterexample_exact_length_fails :
    ansible.reqLen (.SetTrPulse 1) = 2 ∧
    ansible.to_bytes (.SetTrPulse 1) [0, 0] =
      some ([0, 0], Except.error SerializationError.BufferTooSmall) :=
  ⟨rfl, rfl⟩

/-- Claim C1, amended: for the ER-301 and Just Friends vocabularies a
buffer of exactly the variant's table length succeeds and one byte
shorter fails with `BufferTooSmall`; for the Ansible and Telexo
vocabularies the same boundary sits uniformly at the vocabulary's
`MAX_LENGTH` of 4 instead of the variant's own length. -/
theorem C1_amended_length_boundary :
    (∀ (c : er301.Commands) (buffer : List Nat),
      buffer.length = er301.reqLen c →
      ∃ b, er301.to_bytes c buffer = some (b, Except.ok (er301.reqLen c))) ∧
    (∀ (c : er301.Commands) (buffer : List Nat),
      buffer.length + 1 = er301.reqLen c →
      er301.to_bytes c buffer =
        some (buffer, Except.error SerializationError.BufferTooSmall)) ∧
    (∀ (c : just_friends.Commands) (buffer : List Nat),
      buffer.length = just_friends.reqLen c →
      ∃ b, just_friends.to_bytes c buffer =
        some (b, Except.ok (just_friends.reqLen c))) ∧
    (∀ (c : just_friends.Commands) (buffer : List Nat),
      buffer.length + 1 = just_friends.reqLen c →
      just_friends.to_bytes c buffer =
        some (buffer, Except.error SerializationError.BufferTooSmall)) ∧
    (∀ (c : ansible.Commands) (buffer : List Nat),
      buffer.length = ansible.MAX_LENGTH →
      ∃ b, ansible.to_bytes c buffer = some (b, Except.ok (ansible.reqLen c))) ∧
    (∀ (c : ansible.Commands) (buffer : List Nat),
      buffer.length + 1 = ansible.MAX_LENGTH →
      ansible.to_bytes c buffer =
        some (buffer, Except.error SerializationError.BufferTooSmall)) ∧
    (∀ (c : telexo.Commands) (buffer : List Nat),
      buffer.length = telexo.MAX_LENGTH →
      ∃ b, telexo.to_bytes c buffer = some (b, Except.ok (telexo.reqLen c))) ∧
    (∀ (c : telexo.Commands) (buffer : List Nat),
      buffer.length + 1 = telexo.MAX_LENGTH →
      telexo.to_bytes c buffer =
        some (buffer, Except.error SerializationError.BufferTooSmall)) := by
  refine ⟨fun c buffer h => ?_, fun c buffer h => ?_, fun c buffer h => ?_,
    fun c buffer h => ?_, fun c buffer h => ?_, fun c buffer h => ?_,
    fun c buffer h => ?_, fun c buffer h => ?_⟩
  · exact ⟨_, er301.to_bytes_success_er301 c buffer h.ge⟩
  · rw [er301.to_bytes_eq_er301, if_pos (by omega)]
  · exact ⟨_, just_friends.to_bytes_success_just_friends c buffer h.ge⟩
  · rw [just_friends.to_bytes_eq_just_friends, if_pos (by omega)]
  · exact ⟨_, ansible.to_bytes_success_ansible c buffer h.ge⟩
  · have h4 : buffer.length + 1 = 4 := h
    rw [ansible.to_bytes_eq_ansible, if_pos (by omega)]
  · exact ⟨_, telexo.to_bytes_success_telexo c buffer h.ge⟩
  · have h4 : buffer.length + 1 = 4 := h
    rw [telexo.to_bytes_eq_telexo, if_pos (by omega)]

/-- Witness for the amended C1 at concrete inputs on either side of each
boundary. -/
theorem C1_amended_length_boundary_witness :
    (∃ b, er301.to_bytes (.SetGate 2 true) [0, 0, 0] =
      some (b, Except.ok (er301.reqLen (.SetGate 2 true)))) ∧
    er301.to_bytes (.SetGate 2 true) [0, 0] =
      some ([0, 0], Except.error SerializationError.BufferTooSmall) ∧
    (∃ b, just_friends.to_bytes (.SetGate 1 false) [0, 0, 0] =
      some (b, Except.ok (just_friends.reqLen (.SetGate 1 false)))) ∧
    just_friends.to_bytes (.SetGate 1 false) [0, 0] =
      some ([0, 0], Except.error SerializationError.BufferTooSmall) ∧
    (∃ b, ansible.to_bytes (.SetTrPulse 1) [0, 0, 0, 0] =
      some (b, Except.ok (ansible.reqLen (.SetTrPulse 1)))) ∧
    ansible.to_bytes (.SetTrPulse 1) [0, 0, 0] =
      some ([0, 0, 0], Except.error SerializationError.BufferTooSmall) ∧
    (∃ b, telexo.to_bytes (.SetGate 0 true) [0, 0, 0, 0] =
      some (b, Except.ok (telexo.reqLen (.SetGate 0 true)))) ∧
    telexo.to_bytes (.SetGate 0 true) [0, 0, 0] =
      some ([0, 0, 0], Except.error SerializationError.BufferTooSmall) :=
  ⟨C1_amended_length_boundary.1 (.SetGate 2 true) [0, 0, 0] rfl,
    C1_amended_length_boundary.2.1 (.SetGate 2 true) [0, 0] rfl,
    (C1_amended_length_boundary.2.2.1) (.SetGate 1 false) [0, 0, 0] rfl,
    (C1_amended_length_boundary.2.2.2.1) (.SetGate 1 false) [0, 0] rfl,
    (C1_amended_length_boundary.2.2.2.2.1) (.SetTrPulse 1) [0, 0, 0, 0] rfl,
    (C1_amended_length_boundary.2.2.2.2.2.1) (.SetTrPulse 1) [0, 0, 0] rfl,
    (C1_amended_length_boundary.2.2.2.2.2.2.1) (.SetGate 0 true) [0, 0, 0, 0] rfl,
    (C1_amended_length_boundary.2.2.2.2.2.2.2) (.SetGate 0 true) [0, 0, 0] rfl⟩
